import Mathlib

/-!
Verification of the context-serialization and hook-execution subsystem of the
cookiecutter fork.

The hook side is a shallow embedding of `cookiecutter/hooks.py`.  External
effects (the filesystem, the spawned subprocess, the Jinja template engine)
are passed in as explicit function parameters, so every definition is an
executable Lean function of those oracles.  Contexts are modelled by a `Json`
inductive type; Python's `json.dumps` / `json.loads` are modelled by
executable `dumps` / `pyLoads` functions (numbers are modelled as integers,
which covers every payload exercised here).

The serializer registry (`cookiecutter/serialization.py`) is not part of the
source tree; only its test suite is.  Its model below is written from the
specification text and is marked `Modelled from the spec:` definition by
definition.
-/

/-! ## Small utilities -/

/-- The `\x7b` character (opening curly brace). -/
def lbrace : Char := Char.ofNat 123

/-- The `\x7d` character (closing curly brace). -/
def rbrace : Char := Char.ofNat 125

/-- Substring test on character lists: does `needle` occur inside the second
list?  Models Python's `needle in haystack` on strings. -/
def listContains (needle : List Char) : List Char → Bool
  | [] => needle.isEmpty
  | c :: rest => needle.isPrefixOf (c :: rest) || listContains needle rest

/-- Python's `needle in haystack` for strings. -/
def pyInStr (needle hay : String) : Bool := listContains needle.data hay.data

/-- Insertion into a Python-style dict kept as an association list: an
existing key is overwritten in place, a new key is appended (CPython dicts
preserve insertion order and keep the original position on re-assignment). -/
def dictInsert {α : Type} (d : List (String × α)) (k : String) (v : α) :
    List (String × α) :=
  if d.any (fun p => p.1 == k) then
    d.map (fun p => if p.1 == k then (k, v) else p)
  else d ++ [(k, v)]

/-- Lookup in a Python-style dict (`d.get(k)`). -/
def dictGet {α : Type} (d : List (String × α)) (k : String) : Option α :=
  (d.find? (fun p => p.1 == k)).map Prod.snd

/-- Key-membership test in a Python-style dict (`k in d`). -/
def dictHasKey {α : Type} (d : List (String × α)) (k : String) : Bool :=
  d.any (fun p => p.1 == k)

/-- Lookup with a default value. -/
def dictGetD {α : Type} (d : List (String × α)) (k : String) (dflt : α) : α :=
  (dictGet d k).getD dflt

/-- Split a character list on newline characters; the result always has one
entry per line, including empty lines. -/
def splitLinesAux : List Char → List Char → List (List Char)
  | [], acc => [acc.reverse]
  | c :: cs, acc =>
    if c = '\n' then acc.reverse :: splitLinesAux cs []
    else splitLinesAux cs (c :: acc)

/-- The prefix of `l` that ends at the last occurrence of `c` (inclusive),
or `none` when `c` does not occur in `l`. -/
def takeToLast (c : Char) (l : List Char) : Option (List Char) :=
  let r := (l.reverse.dropWhile (fun x => x != c)).reverse
  if r.isEmpty then none else some r

/-- Interleave a separator between the elements of a list of fragments. -/
def joinWith (sep : List Char) : List (List Char) → List Char
  | [] => []
  | [x] => x
  | x :: y :: xs => x ++ sep ++ joinWith sep (y :: xs)

/-! ## JSON values -/

/-- JSON values, the data model of cookiecutter contexts.  Objects keep their
key order, as Python dicts do; numbers are modelled as integers. -/
inductive Json where
  | null : Json
  | bool (b : Bool) : Json
  | num (n : Int) : Json
  | str (s : String) : Json
  | arr (xs : List Json) : Json
  | obj (kvs : List (String × Json)) : Json

/-- Python truthiness of a JSON value (`bool(v)`): `None`, `False`, `0`,
empty strings and empty containers are falsy, everything else is truthy. -/
def Json.truthy : Json → Bool
  | .null => false
  | .bool b => b
  | .num n => n != 0
  | .str s => !s.isEmpty
  | .arr xs => !xs.isEmpty
  | .obj kvs => !kvs.isEmpty

/-- A cookiecutter context: a Python dict with string keys. -/
abbrev PyDict : Type := List (String × Json)

/-- Key membership in a JSON value, Python's `k in subject` for dicts
(`False` on non-dicts, where Python would instead error or test containment
differently; only dicts reach this test in the modelled code). -/
def jsonHasKey (j : Json) (k : String) : Bool :=
  match j with
  | .obj kvs => dictHasKey kvs k
  | _ => false

/-! ## json.dumps -/

/-- Escape one character of a JSON string the way `json.dumps` does for the
characters exercised here. -/
def escapeChar (c : Char) : List Char :=
  if c = '"' then ['\\', '"']
  else if c = '\\' then ['\\', '\\']
  else if c = '\n' then ['\\', 'n']
  else if c = '\t' then ['\\', 't']
  else if c = '\r' then ['\\', 'r']
  else [c]

/-- Quote a JSON string literal. -/
def quoteStr (s : String) : List Char :=
  '"' :: (s.data.map escapeChar).flatten ++ ['"']

/-- Fuel-indexed body of `dumps`; the fuel bounds the nesting depth. -/
def dumpsV : Nat → Json → List Char
  | 0, _ => []
  | fuel+1, v =>
    match v with
    | .null => (("null")).data
    | .bool true => (("true")).data
    | .bool false => (("false")).data
    | .num n => (toString n).data
    | .str s => quoteStr s
    | .arr xs =>
      '[' :: joinWith [',', ' '] (xs.map (dumpsV fuel)) ++ [']']
    | .obj kvs =>
      lbrace :: joinWith [',', ' ']
        (kvs.map (fun p => quoteStr p.1 ++ [':', ' '] ++ dumpsV fuel p.2))
        ++ [rbrace]

/-- Model of Python's `json.dumps` with its default separators, adequate for
documents nested less than 1000 levels deep (all of them, in practice). -/
def dumps (v : Json) : String := (dumpsV 1000 v).asString

/-! ## json.loads -/

/-- Hexadecimal digit value. -/
def hexVal (c : Char) : Option Nat :=
  if c.isDigit then some (c.toNat - 48)
  else if 'a' ≤ c && c ≤ 'f' then some (c.toNat - 87)
  else if 'A' ≤ c && c ≤ 'F' then some (c.toNat - 55)
  else none

/-- Single-character JSON escapes. -/
def escChar (e : Char) : Option Char :=
  if e = '"' then some '"'
  else if e = '\\' then some '\\'
  else if e = '/' then some '/'
  else if e = 'n' then some '\n'
  else if e = 't' then some '\t'
  else if e = 'r' then some '\r'
  else if e = 'b' then some (Char.ofNat 8)
  else if e = 'f' then some (Char.ofNat 12)
  else none

/-- Parse the body of a JSON string literal (after the opening quote),
returning the decoded characters and the rest of the input after the closing
quote.  Unescaped control characters are rejected, as `json.loads` does. -/
def parseStrBody : Nat → List Char → Option (List Char × List Char)
  | 0, _ => none
  | fuel+1, cs =>
    match cs with
    | [] => none
    | '"' :: rest => some ([], rest)
    | '\\' :: rest =>
      match rest with
      | [] => none
      | e :: rest2 =>
        match escChar e with
        | some c => (parseStrBody fuel rest2).map (fun p => (c :: p.1, p.2))
        | none =>
          if e = 'u' then
            match rest2 with
            | h1 :: h2 :: h3 :: h4 :: rest3 =>
              match hexVal h1, hexVal h2, hexVal h3, hexVal h4 with
              | some a, some b, some c, some d =>
                (parseStrBody fuel rest3).map
                  (fun p => (Char.ofNat (((a * 16 + b) * 16 + c) * 16 + d) :: p.1, p.2))
              | _, _, _, _ => none
            | _ => none
          else none
    | c :: rest =>
      if c.toNat < 32 then none
      else (parseStrBody fuel rest).map (fun p => (c :: p.1, p.2))

/-- Digits to a natural number. -/
def digitsToNat (ds : List Char) : Nat :=
  ds.foldl (fun a c => a * 10 + (c.toNat - 48)) 0

/-- Parse an unsigned JSON integer (leading zeros rejected, floats rejected:
numbers are modelled as integers). -/
def parseNatNum (cs : List Char) : Option (Nat × List Char) :=
  let digits := cs.takeWhile (fun c => c.isDigit)
  if digits.isEmpty then none
  else if digits.length > 1 && digits.head? == some '0' then none
  else
    match cs.drop digits.length with
    | c :: rest =>
      if c = '.' || c = 'e' || c = 'E' then none
      else some (digitsToNat digits, c :: rest)
    | [] => some (digitsToNat digits, [])

/-- Parse a JSON number (integer). -/
def parseNum (cs : List Char) : Option (Json × List Char) :=
  match cs with
  | '-' :: rest => (parseNatNum rest).map (fun p => (Json.num (-(p.1 : Int)), p.2))
  | _ => (parseNatNum cs).map (fun p => (Json.num (p.1 : Int), p.2))

/-- JSON whitespace. -/
def isJsonWs (c : Char) : Bool := c = ' ' || c = '\t' || c = '\n' || c = '\r'

/-- Skip JSON whitespace. -/
def skipWs (cs : List Char) : List Char := cs.dropWhile isJsonWs

mutual

/-- Parse one JSON value; the fuel bounds the number of recursive steps. -/
def parseVal : Nat → List Char → Option (Json × List Char)
  | 0, _ => none
  | fuel+1, cs =>
    match skipWs cs with
    | 'n' :: 'u' :: 'l' :: 'l' :: rest => some (Json.null, rest)
    | 't' :: 'r' :: 'u' :: 'e' :: rest => some (Json.bool true, rest)
    | 'f' :: 'a' :: 'l' :: 's' :: 'e' :: rest => some (Json.bool false, rest)
    | '"' :: rest =>
      (parseStrBody fuel rest).map (fun p => (Json.str p.1.asString, p.2))
    | c :: rest =>
      if c = lbrace then
        match skipWs rest with
        | d :: rest2 =>
          if d = rbrace then some (Json.obj [], rest2)
          else parseMembers fuel (d :: rest2) []
        | [] => none
      else if c = '[' then
        match skipWs rest with
        | ']' :: rest2 => some (Json.arr [], rest2)
        | other => parseElems fuel other []
      else parseNum (c :: rest)
    | [] => none

/-- Parse the members of a JSON object, after the opening brace (input
already known to be nonempty and not the closing brace). -/
def parseMembers : Nat → List Char → List (String × Json) →
    Option (Json × List Char)
  | 0, _, _ => none
  | fuel+1, cs, acc =>
    match cs with
    | '"' :: rest =>
      match parseStrBody fuel rest with
      | some (key, rest2) =>
        match skipWs rest2 with
        | ':' :: rest3 =>
          match parseVal fuel rest3 with
          | some (v, rest4) =>
            let acc2 := dictInsert acc key.asString v
            match skipWs rest4 with
            | ',' :: rest5 =>
              match skipWs rest5 with
              | d :: rest6 => parseMembers fuel (d :: rest6) acc2
              | [] => none
            | d :: rest5 =>
              if d = rbrace then some (Json.obj acc2, rest5) else none
            | [] => none
          | none => none
        | _ => none
      | none => none
    | _ => none

/-- Parse the elements of a JSON array, after the opening bracket (input
already known to be nonempty and not the closing bracket). -/
def parseElems : Nat → List Char → List Json → Option (Json × List Char)
  | 0, _, _ => none
  | fuel+1, cs, acc =>
    match parseVal fuel cs with
    | some (v, rest) =>
      match skipWs rest with
      | ',' :: rest2 => parseElems fuel rest2 (acc ++ [v])
      | ']' :: rest2 => some (Json.arr (acc ++ [v]), rest2)
      | _ => none
    | none => none

end

/-- Model of Python's `json.loads`: parse a complete JSON document, rejecting
trailing garbage; `none` models a raised `ValueError`. -/
def pyLoads (s : String) : Option Json :=
  match parseVal (4 * s.length + 16) s.data with
  | some (v, rest) => if (skipWs rest).isEmpty then some v else none
  | none => none

/-! ## Hooks: `cookiecutter/hooks.py`

External effects become oracle parameters:
* `run : script → cwd → stdin → ProcResult` models `subprocess.Popen` plus
  `communicate` plus `wait`;
* `render : template-text → context → text` models
  `jinja2.Template(contents).render(**context)`;
* `readFile : path → text` models `io.open(path).read()`;
* `tmpBase : String` models the random part of the `NamedTemporaryFile` name
  (the file's name is `tmpBase ++ suffix`);
* the `hooks` directory is an `Option (List String)` directory listing,
  `none` when the directory is absent.
-/

/-- Outcome of one subprocess run: captured stdout and stderr text plus the
exit status. -/
structure ProcResult where
  stdout : String
  stderr : String
  exitStatus : Int

/-- Errors escaping the hook layer: `FailedHookException` with its message. -/
inductive HookError where
  | failedHook (msg : String) : HookError

/-- Python's `os.path.basename` (POSIX). -/
def basename (p : String) : String :=
  ((p.data.reverse.takeWhile (fun c => c != '/')).reverse).asString

/-- Python's `os.path.splitext`: split off the extension at the last dot of
the basename, unless every character before that dot is itself a dot. -/
def splitext (p : String) : String × String :=
  let cs := p.data
  let base := (cs.reverse.takeWhile (fun c => c != '/')).reverse
  let dir := cs.take (cs.length - base.length)
  let extRev := base.reverse.takeWhile (fun c => c != '.')
  if extRev.length = base.length then (p, ("")) else
    let stem := base.take (base.length - extRev.length - 1)
    if stem.all (fun c => c = '.') then (p, (""))
    else ((dir ++ stem).asString, ('.' :: extRev.reverse).asString)

/-- The `_HOOKS` list of recognized hook names. -/
def hooksNames : List String := [("pre_gen_project"), ("post_gen_project")]

/-- `find_hooks()`: scan the `hooks` directory listing; for each file whose
name stripped of its extension is a recognized hook name, record the absolute
path of `hooks/<file>`; an absent directory yields the empty dict. -/
def find_hooks (abspath : String → String)
    (hooksDirListing : Option (List String)) : List (String × String) :=
  match hooksDirListing with
  | none => []
  | some files =>
    files.foldl
      (fun r f =>
        let bn := (splitext (basename f)).1
        if hooksNames.contains bn then
          dictInsert r bn (abspath (("hooks/") ++ f))
        else r)
      []

/-- One line's worth of `re.findall('(\x7b.*\x7d)', text)`: the Python regex
is greedy, so within a line it matches from the first opening brace to the
last closing brace after it, at most once per line (`.` does not cross
newlines). -/
def lineMatch (l : List Char) : Option (List Char) :=
  match l.dropWhile (fun c => c != lbrace) with
  | [] => none
  | _ :: tail =>
    match takeToLast rbrace tail with
    | some pre => some (lbrace :: pre)
    | none => none

/-- `re.findall('(\x7b.*\x7d)', s)`: the list of greedy brace-delimited
matches, one per line that has a closing brace after its first opening
brace. -/
def findallBraces (s : String) : List String :=
  ((splitLinesAux s.data []).filterMap lineMatch).map List.asString

/-- `__do_run_script`: run the script in `cwd` feeding it the serialized
context on stdin; a non-zero exit status raises `FailedHookException` naming
the exit status, otherwise the captured (stdout, stderr) pair is returned. -/
def do_run_script (run : String → String → String → ProcResult)
    (script_path cwd serialized_context : String) :
    Except HookError (String × String) :=
  if (run script_path cwd serialized_context).exitStatus ≠ 0 then
    .error (.failedHook
      (("Hook script failed (exit status: ")
        ++ toString (run script_path cwd serialized_context).exitStatus ++ (")")))
  else .ok ((run script_path cwd serialized_context).stdout,
    (run script_path cwd serialized_context).stderr)

/-- `__create_renderable_hook`: read the hook's text, render it through
Jinja with the context, and write the output to a fresh temporary file whose
name keeps the original extension; returns (temp file name, written text). -/
def create_renderable_hook (render : String → PyDict → String)
    (readFile : String → String) (tmpBase script_path : String)
    (context : PyDict) : String × String :=
  let extension := (splitext script_path).2
  let contents := readFile script_path
  let output := render contents context
  (tmpBase ++ extension, output)

/-- The `script` local of `run_script_with_context`: the original path when
the context carries a truthy `_run_hook_in_place` key, otherwise the rendered
temporary file. -/
def hookScript (render : String → PyDict → String) (readFile : String → String)
    (tmpBase script_path : String) (context : PyDict) : String :=
  if dictHasKey context ("_run_hook_in_place")
      && (dictGetD context ("_run_hook_in_place") Json.null).truthy then
    script_path
  else
    (create_renderable_hook render readFile tmpBase script_path context).1

/-- The stdout interpretation of `run_script_with_context`: take the last
greedy brace-delimited match of the captured stdout and parse it as the new
context; when there is no match, or parsing raises `ValueError` (caught by
the `except ValueError` arm), the input context is returned unchanged. -/
def interpretStdout (context : PyDict) (stdout : String) : Json :=
  match (findallBraces stdout).getLast? with
  | none => Json.obj context
  | some m =>
    match pyLoads m with
    | none => Json.obj context
    | some v => v

/-- `run_script_with_context`: select the script to execute, run it with the
JSON-dumped context on stdin, and reinterpret the captured stdout as the new
context.  `FailedHookException` (from a non-zero exit status) propagates: it
is not a `ValueError`, so the `except` arm does not catch it. -/
def run_script_with_context (render : String → PyDict → String)
    (readFile : String → String) (tmpBase : String)
    (run : String → String → String → ProcResult)
    (script_path cwd : String) (context : PyDict) : Except HookError Json :=
  match do_run_script run (hookScript render readFile tmpBase script_path context)
      cwd (dumps (Json.obj context)) with
  | .error e => .error e
  | .ok out => .ok (interpretStdout context out.1)

/-- `run_hook`: look the hook up by name; a missing hook returns the context
unchanged, otherwise the script runs from the project directory. -/
def run_hook (abspath : String → String) (render : String → PyDict → String)
    (readFile : String → String) (tmpBase : String)
    (run : String → String → String → ProcResult)
    (hooksDirListing : Option (List String))
    (hook_name project_dir : String) (context : PyDict) :
    Except HookError Json :=
  match dictGet (find_hooks abspath hooksDirListing) hook_name with
  | none => .ok (Json.obj context)
  | some script =>
    run_script_with_context render readFile tmpBase run script project_dir context

/-! ## Serializer registry / facade

The module `cookiecutter/serialization.py` is not in the source tree (only
its test suite is), so the definitions of this section are written from the
specification text. -/

/-- Modelled from the spec: first character of a serializer tag, per the
grammar `[A-Za-z_][A-Za-z0-9_.-]*` of the envelope wire format. -/
def tagStart (c : Char) : Bool := c.isAlpha || c = '_'

/-- Modelled from the spec: subsequent characters of a serializer tag
(alphanumeric, underscore, dot, or hyphen). -/
def tagRest (c : Char) : Bool := c.isAlphanum || c = '_' || c = '.' || c = '-'

/-- Modelled from the spec: whole-tag validity against the grammar
`[A-Za-z_][A-Za-z0-9_.-]*`. -/
def validTag (t : String) : Bool :=
  match t.data with
  | [] => false
  | c :: rest => tagStart c && rest.all tagRest

/-- Modelled from the spec: a serializer object as the registry sees it — an
encode function, a decode function (`none` models a raised decoding error),
and whether the object explicitly declares the `AbstractSerializer`
capability (duck-typed lookalikes carry `false` here). -/
structure PySerializer where
  ser : Json → String
  deser : String → Option Json
  isAbstract : Bool

/-- Modelled from the spec: the error taxonomy of the serialization facade. -/
inductive SerError where
  | invalidType (msg : String) : SerError
  | invalidSerializerType (msg : String) : SerError
  | unknownSerializerType (msg : String) : SerError
  | badSerializedStringFormat (msg : String) : SerError
  | deserializeFailure (msg : String) : SerError

/-- Modelled from the spec: the default JSON-backed serializer, which must
round-trip any JSON-representable mapping exactly. -/
def JsonSerializer : PySerializer :=
  { ser := dumps, deser := pyLoads, isAbstract := true }

/-- Modelled from the spec: the registry/facade state — the tag-to-serializer
mapping and the mutable `current type` field. -/
structure SerializationFacade where
  serializers : List (String × PySerializer)
  current_type : String

/-- Modelled from the spec: a fresh facade pre-registers the `json` default
and starts with current type `json`. -/
def SerializationFacade.init : SerializationFacade :=
  { serializers := [(("json"), JsonSerializer)], current_type := ("json") }

/-- Modelled from the spec: construction with an initial tag-to-serializer
seed mapping, in addition to the implicit `json` default (which remains
present unless overwritten). -/
def SerializationFacade.initWith (seed : List (String × PySerializer)) :
    SerializationFacade :=
  { serializers := seed.foldl (fun d p => dictInsert d p.1 p.2)
      [(("json"), JsonSerializer)],
    current_type := ("json") }

/-- Modelled from the spec: `get_type()` returns the current type. -/
def SerializationFacade.get_type (f : SerializationFacade) : String :=
  f.current_type

/-- Modelled from the spec: `serialize(context, type=None)` — an omitted tag
defaults to the current type; an unregistered tag fails with
`UnknownSerializerType` naming the tag; otherwise the envelope
`tag|payload$` is produced.  The facade state is returned unchanged:
serialize never mutates it. -/
def SerializationFacade.serialize (f : SerializationFacade) (context : Json)
    (type? : Option String) : (Except SerError String) × SerializationFacade :=
  let t := type?.getD f.current_type
  match dictGet f.serializers t with
  | none => (.error (.unknownSerializerType (("Unknown serializer type: ") ++ t)), f)
  | some s => (.ok (t ++ ("|") ++ s.ser context ++ ("$")), f)

/-- Modelled from the spec: one step of the envelope scan.  At the head of
the input, a greedy regex match of `tag|payload$` needs the maximal run of
tag characters to be followed by a literal `|`; the greedy payload then
extends to the last `$` on the same line.  Returns the tag, the payload and
the input remaining after the match. -/
def envelopeAt (cs : List Char) : Option (String × String × List Char) :=
  match cs with
  | [] => none
  | c :: _ =>
    if tagStart c then
      let run := cs.takeWhile tagRest
      match cs.drop run.length with
      | '|' :: rest =>
        let line := rest.takeWhile (fun x => x != '\n')
        match takeToLast '$' line with
        | some pre => some (run.asString, (pre.dropLast.asString, rest.drop pre.length))
        | none => none
      | _ => none
    else none

/-- Modelled from the spec: the left-to-right scan for envelope-shaped
substrings, advancing one character on failure and past the match on
success — the non-overlapping match list of the envelope regex. -/
def findEnvelopes : Nat → List Char → List (String × String)
  | 0, _ => []
  | fuel+1, cs =>
    match envelopeAt cs with
    | some (t, p, rest2) => (t, p) :: findEnvelopes fuel rest2
    | none =>
      match cs with
      | [] => []
      | _ :: rest => findEnvelopes fuel rest

/-- Modelled from the spec: extraction of the last envelope-shaped occurrence
in a noisy input string (greedy-for-last, per the wire-format section). -/
def findLastEnvelope (s : String) : Option (String × String) :=
  (findEnvelopes (s.data.length + 1) s.data).getLast?

/-- Modelled from the spec: the `BadSerializedStringFormat` message indicating
the expected `type|payload$` form (its prefix is asserted by the tests). -/
def badFormatMsg : String :=
  ("Serialized string should be of the form type|payload$")

/-- Modelled from the spec: `deserialize(string)` — locate the last
envelope-shaped occurrence (else `BadSerializedStringFormat`), look up the
extracted tag (else `UnknownSerializerType` naming it), decode the payload,
and only on full success update the current type to the extracted tag. -/
def SerializationFacade.deserialize (f : SerializationFacade) (s : String) :
    (Except SerError Json) × SerializationFacade :=
  match findLastEnvelope s with
  | none => (.error (.badSerializedStringFormat badFormatMsg), f)
  | some (t, payload) =>
    match dictGet f.serializers t with
    | none => (.error (.unknownSerializerType (("Unknown serializer type: ") ++ t)), f)
    | some ser =>
      match ser.deser payload with
      | none => (.error (.deserializeFailure (("Unable to deserialize: ") ++ payload)), f)
      | some ctx => (.ok ctx, { f with current_type := t })

/-- Modelled from the spec: `register(type, serializer)` — an invalid tag
fails with `InvalidSerializerType`; an object that does not explicitly
declare the `AbstractSerializer` capability fails with `InvalidType`; both
failures leave the facade untouched; success overwrites last-write-wins. -/
def SerializationFacade.register (f : SerializationFacade) (t : String)
    (s : PySerializer) : (Except SerError Unit) × SerializationFacade :=
  if validTag t then
    if s.isAbstract then
      (.ok (), { f with serializers := dictInsert f.serializers t s })
    else
      (.error (.invalidType (("Serializer should extend AbstractSerializer"))), f)
  else
    (.error (.invalidSerializerType (("Invalid serializer type: ") ++ t)), f)

/-! ## Concrete fixtures used by the witnesses -/

/-- The context `\x7b"my_key": "my_val"\x7d` of the test suite. -/
def ctx1 : Json := Json.obj [(("my_key"), Json.str ("my_val"))]

/-- The context `\x7b"my_key2": "my_val2"\x7d` of the test suite. -/
def ctx2 : Json := Json.obj [(("my_key2"), Json.str ("my_val2"))]

/-- The `DummySerializer` of the test suite: serializes to ` serialized text`
when the subject has key `my_key2` and to `serialized` otherwise;
deserializes to `ctx2` when the input contains `serialized text` and to
`ctx1` otherwise.  It declares the capability. -/
def DummySerializer : PySerializer :=
  { ser := fun subject =>
      if jsonHasKey subject ("my_key2") then (" serialized text")
      else ("serialized"),
    deser := fun s =>
      some (if pyInStr ("serialized text") s then ctx2 else ctx1),
    isAbstract := true }

/-- The `FakeSerializer` of the test suite: it has serialize/deserialize
methods but does not declare the `AbstractSerializer` capability. -/
def FakeSerializer : PySerializer :=
  { ser := fun _ => ("serialized"), deser := fun _ => some (Json.obj []),
    isAbstract := false }

/-- A degenerate but capability-declaring serializer that forgets its input:
it witnesses that the facade round-trip law needs the underlying serializer
itself to round-trip. -/
def ForgetfulSerializer : PySerializer :=
  { ser := fun _ => ("serialized"), deser := fun _ => some (Json.obj []),
    isAbstract := true }

/-- The input of `test_deserialize_the_last_serialized_string_found`:
`dummy text dummy|P1$ another dummy text dummy|P2$` with `P1`, `P2` the
dummy serializations of `ctx1` and `ctx2`. -/
def testSerialized : String :=
  ("dummy text dummy|serialized$ another dummy text dummy| serialized text$")

/-- The facade of that test, seeded with the dummy serializer. -/
def dummyFacade : SerializationFacade :=
  SerializationFacade.initWith [(("dummy"), DummySerializer)]

/-- A trivial path oracle for witnesses. -/
def idPath : String → String := fun p => p

/-- A trivial template renderer for witnesses (returns the text unchanged). -/
def idRender : String → PyDict → String := fun contents _ => contents

/-- A trivial file reader for witnesses. -/
def emptyRead : String → String := fun _ => ("")

/-- A subprocess oracle returning fixed stdout/stderr/exit values. -/
def constRun (stdout stderr : String) (exitStatus : Int) :
    String → String → String → ProcResult :=
  fun _ _ _ => { stdout := stdout, stderr := stderr, exitStatus := exitStatus }

/-- Absence of newline characters in a string; the greedy envelope payload
match cannot cross a line boundary. -/
def noNewline (s : String) : Bool := s.data.all (fun c => c != '\n')

/-- A facade with the forgetful serializer registered under `bad`. -/
def forgetFacade : SerializationFacade :=
  (SerializationFacade.init.register ("bad") ForgetfulSerializer).2

/-- Example hook stdout: a JSON object printed among other output. -/
def exampleStdout : String :=
  ("Creating files\n\x7b\"new_key\": \"v\"\x7d\nAll done")

/-- A non-hook context used by witnesses. -/
def hookCtx : PyDict := [(("project"), Json.str ("x"))]

/-- A context carrying a truthy `_run_hook_in_place` flag. -/
def inPlaceCtx : PyDict := [(("_run_hook_in_place"), Json.bool true)]

/-- The empty context. -/
def plainCtx : PyDict := []

/-- Hook stdout with no brace-delimited substring at all. -/
def noJsonStdout : String := ("All files generated")

/-- Hook stdout whose only brace-delimited substring is not valid JSON. -/
def badJsonStdout : String := ("\x7bnot valid json\x7d")

/-! ## Helper lemmas -/

theorem data_append (a b : String) : (a ++ b).data = a.data ++ b.data := rfl

theorem asString_data (s : String) : s.data.asString = s := rfl

theorem takeWhile_append_of_all {p : Char → Bool} (l1 l2 : List Char) (b : Char)
    (h1 : ∀ a ∈ l1, p a = true) (hb : p b = false) :
    (l1 ++ b :: l2).takeWhile p = l1 := by
  induction l1 with
  | nil => simp [List.takeWhile_cons, hb]
  | cons c cs ih =>
    have hc : p c = true := h1 c (by simp)
    simp only [List.cons_append, List.takeWhile_cons, hc, if_true]
    have := ih (fun a ha => h1 a (by simp [ha]))
    simp [this]

theorem takeWhile_eq_self_of_all {p : Char → Bool} (l : List Char)
    (h : ∀ a ∈ l, p a = true) : l.takeWhile p = l := by
  induction l with
  | nil => rfl
  | cons c cs ih =>
    have hc : p c = true := h c (by simp)
    simp only [List.takeWhile_cons, hc, if_true]
    exact congrArg (c :: ·) (ih (fun a ha => h a (by simp [ha])))

theorem takeToLast_concat (c : Char) (l : List Char) :
    takeToLast c (l ++ [c]) = some (l ++ [c]) := by
  unfold takeToLast
  simp [List.dropWhile]

theorem tagStart_tagRest {c : Char} (h : tagStart c = true) : tagRest c = true := by
  unfold tagStart at h
  unfold tagRest Char.isAlphanum
  rcases Bool.or_eq_true_iff.1 h with h1 | h1 <;> simp [h1]


theorem envelopeAt_envelope (T P : String) (hT : validTag T = true)
    (hP : noNewline P = true) :
    envelopeAt (T.data ++ '|' :: (P.data ++ ['$'])) = some (T, P, []) := by
  rcases hD : T.data with _ | ⟨c, rest⟩
  · rw [validTag, hD] at hT; exact absurd hT (by simp)
  · rw [validTag, hD] at hT
    have hc : tagStart c = true := (Bool.and_eq_true_iff.1 hT).1
    have hrest : ∀ a ∈ rest, tagRest a = true := by
      have := (Bool.and_eq_true_iff.1 hT).2
      intro a ha
      exact List.all_eq_true.1 this a ha
    have hall : ∀ a ∈ c :: rest, tagRest a = true := by
      intro a ha
      rcases List.mem_cons.1 ha with h | h
      · exact h ▸ tagStart_tagRest hc
      · exact hrest a h
    have hrun : (c :: (rest ++ '|' :: (P.data ++ ['$']))).takeWhile tagRest
        = c :: rest := by
      have h0 := takeWhile_append_of_all (c :: rest) (P.data ++ ['$']) '|' hall
        (by decide)
      rw [List.cons_append] at h0
      exact h0
    have hdrop1 : (c :: (rest ++ '|' :: (P.data ++ ['$']))).drop (c :: rest).length
        = '|' :: (P.data ++ ['$']) := by
      have h0 := List.drop_left (c :: rest) ('|' :: (P.data ++ ['$']))
      rw [List.cons_append] at h0
      exact h0
    have hline : (P.data ++ ['$']).takeWhile (fun x => x != '\n')
        = P.data ++ ['$'] := by
      apply takeWhile_eq_self_of_all
      intro a ha
      rcases List.mem_append.1 ha with h | h
      · exact List.all_eq_true.1 hP a h
      · simp at h; simp [h]
    have hTa : (c :: rest).asString = T := by rw [← hD]; exact asString_data T
    have hPa : (P.data ++ ['$']).dropLast.asString = P := by
      rw [List.dropLast_concat]; exact asString_data P
    have hdrop2 : (P.data ++ ['$']).drop (P.data ++ ['$']).length = [] :=
      List.drop_length _
    unfold envelopeAt
    simp [hc, hrun, hdrop1, hline, takeToLast_concat, hPa, hTa, hdrop2,
      asString_data]

theorem findEnvelopes_nil (fuel : Nat) : findEnvelopes fuel [] = [] := by
  cases fuel <;> simp [findEnvelopes, envelopeAt]

theorem findLastEnvelope_envelope (T P : String) (hT : validTag T = true)
    (hP : noNewline P = true) :
    findLastEnvelope (T ++ ("|") ++ P ++ ("$")) = some (T, P) := by
  have hdata : (T ++ ("|") ++ P ++ ("$")).data
      = T.data ++ '|' :: (P.data ++ ['$']) := by
    simp [data_append]
  unfold findLastEnvelope
  rw [hdata]
  simp only [findEnvelopes, envelopeAt_envelope T P hT hP, findEnvelopes_nil]
  rfl

theorem find?_map_keep {α : Type} (d : List (String × α)) (k k' : String)
    (v : α) (h : (k == k') = false) :
    Option.map Prod.snd
        ((d.map (fun p => if p.1 == k then (k, v) else p)).find?
          (fun p => p.1 == k'))
      = Option.map Prod.snd (d.find? (fun p => p.1 == k')) := by
  induction d with
  | nil => rfl
  | cons p d ih =>
    by_cases hp : (p.1 == k) = true
    · have hpk : p.1 = k := by simpa using hp
      have hp' : (p.1 == k') = false := by rw [hpk]; exact h
      have hg : (if p.1 == k then (k, v) else p) = (k, v) := by simp [hp]
      simp only [List.map_cons, hg]
      rw [List.find?_cons_of_neg _ (by simp [h]),
        List.find?_cons_of_neg _ (by simp [hp'])]
      exact ih
    · have hp2 : (p.1 == k) = false := by simpa using hp
      have hg : (if p.1 == k then (k, v) else p) = p := by simp [hp2]
      simp only [List.map_cons, hg]
      by_cases hq : (p.1 == k') = true
      · rw [List.find?_cons_of_pos _ (by simpa using hq),
          List.find?_cons_of_pos _ (by simpa using hq)]
      · have hq2 : (p.1 == k') = false := by simpa using hq
        rw [List.find?_cons_of_neg _ (by simp [hq2]),
          List.find?_cons_of_neg _ (by simp [hq2])]
        exact ih

theorem find?_append_single {α : Type} (d : List (String × α)) (k k' : String)
    (v : α) (h : (k == k') = false) :
    (d ++ [(k, v)]).find? (fun p => p.1 == k')
      = d.find? (fun p => p.1 == k') := by
  induction d with
  | nil =>
    simp only [List.nil_append]
    rw [List.find?_cons_of_neg _ (by simp [h])]
  | cons p d ih =>
    by_cases hq : (p.1 == k') = true
    · rw [List.cons_append, List.find?_cons_of_pos _ (by simpa using hq),
        List.find?_cons_of_pos _ (by simpa using hq)]
    · have hq2 : (p.1 == k') = false := by simpa using hq
      rw [List.cons_append, List.find?_cons_of_neg _ (by simp [hq2]),
        List.find?_cons_of_neg _ (by simp [hq2])]
      exact ih

theorem dictGet_insert_of_ne {α : Type} (d : List (String × α)) (k k' : String)
    (v : α) (h : (k == k') = false) :
    dictGet (dictInsert d k v) k' = dictGet d k' := by
  unfold dictInsert dictGet
  by_cases hd : d.any (fun p => p.1 == k) = true
  · rw [if_pos hd]
    exact find?_map_keep d k k' v h
  · rw [if_neg hd]
    rw [find?_append_single d k k' v h]

theorem rswc_of_exit_zero (render : String → PyDict → String)
    (readFile : String → String) (tmpBase : String)
    (run : String → String → String → ProcResult)
    (script_path cwd : String) (context : PyDict)
    (hexit : (run (hookScript render readFile tmpBase script_path context) cwd
        (dumps (Json.obj context))).exitStatus = 0) :
    run_script_with_context render readFile tmpBase run script_path cwd context
      = .ok (interpretStdout context
          (run (hookScript render readFile tmpBase script_path context) cwd
            (dumps (Json.obj context))).stdout) := by
  unfold run_script_with_context do_run_script
  rw [if_neg (by simp [hexit])]

theorem rswc_of_exit_nonzero (render : String → PyDict → String)
    (readFile : String → String) (tmpBase : String)
    (run : String → String → String → ProcResult)
    (script_path cwd : String) (context : PyDict) (e : Int)
    (he : (run (hookScript render readFile tmpBase script_path context) cwd
        (dumps (Json.obj context))).exitStatus = e)
    (hne : e ≠ 0) :
    run_script_with_context render readFile tmpBase run script_path cwd context
      = .error (.failedHook
          (("Hook script failed (exit status: ") ++ toString e ++ (")"))) := by
  unfold run_script_with_context do_run_script
  rw [he, if_pos hne]

theorem dictGet_foldl_none {β : Type} (name : String) (key : β → String)
    (val : β → String) (keep : β → Bool) (files : List β)
    (h : ∀ f ∈ files, key f ≠ name) :
    ∀ acc : List (String × String), dictGet acc name = none →
      dictGet (files.foldl (fun r f =>
          if keep f then dictInsert r (key f) (val f) else r) acc) name
        = none := by
  induction files with
  | nil => intro acc hacc; simpa using hacc
  | cons f fs ih =>
    intro acc hacc
    simp only [List.foldl_cons]
    apply ih (fun g hg => h g (by simp [hg]))
    by_cases hk : keep f = true
    · rw [if_pos hk]
      have hne : ((key f) == name) = false := by
        have := h f (by simp)
        simpa using this
      rw [dictGet_insert_of_ne _ _ _ _ hne]
      exact hacc
    · rw [if_neg hk]; exact hacc

theorem find_hooks_lookup_none (abspath : String → String)
    (files : List String) (name : String)
    (h : ∀ f ∈ files, (splitext (basename f)).1 ≠ name) :
    dictGet (find_hooks abspath (some files)) name = none := by
  have hg := dictGet_foldl_none name (fun f => (splitext (basename f)).1)
      (fun f => abspath (("hooks/") ++ f))
      (fun f => hooksNames.contains ((splitext (basename f)).1)) files h [] rfl
  exact hg

/-! ## Claim theorems -/

/-- C2 (counterexample): the round-trip law fails as universally stated — a
facade whose registered `bad` serializer forgets its input serializes
`ctx1` to `bad|serialized$` but deserializes that envelope to the empty
object, which differs from `ctx1`. -/
theorem facade_roundtrip_counterexample :
    (forgetFacade.serialize ctx1 (some (("bad")))).1 = .ok (("bad|serialized$")) ∧
    (forgetFacade.deserialize (("bad|serialized$"))).1 = .ok (Json.obj []) ∧
    Json.obj [] ≠ ctx1 := by
  refine ⟨rfl, rfl, ?_⟩
  intro h
  simp [ctx1] at h

/-- C2 (amended): for every facade, JSON-representable context `C` and
registered tag `T` whose serializer itself round-trips `C` (with a
newline-free payload, as the default JSON serializer always produces),
serializing under `T` and deserializing the envelope returns a context equal
to `C`. -/
theorem facade_roundtrip_amended (f : SerializationFacade) (C : Json)
    (T : String) (s : PySerializer)
    (hreg : dictGet f.serializers T = some s)
    (hvalid : validTag T = true)
    (hnl : noNewline (s.ser C) = true)
    (hrt : s.deser (s.ser C) = some C) :
    f.serialize C (some T) = (.ok (T ++ ("|") ++ s.ser C ++ ("$")), f) ∧
    (f.deserialize (T ++ ("|") ++ s.ser C ++ ("$"))).1 = .ok C := by
  constructor
  · unfold SerializationFacade.serialize
    simp [hreg]
  · unfold SerializationFacade.deserialize
    rw [findLastEnvelope_envelope T (s.ser C) hvalid hnl]
    simp [hreg, hrt]

theorem facade_roundtrip_amended_witness :
    (SerializationFacade.init.deserialize
        (("json") ++ ("|") ++ JsonSerializer.ser ctx1 ++ ("$"))).1 = .ok ctx1 :=
  (facade_roundtrip_amended SerializationFacade.init ctx1 (("json"))
    JsonSerializer (by rfl) (by rfl) (by rfl) (by rfl)).2

/-- C5: `deserialize` decodes the last envelope-shaped occurrence — on the
two-envelope test input `dummy text dummy|P1$ another dummy text dummy|P2$`
the result equals the context the dummy serializer decodes from `P2` — and
an input with no envelope-shaped substring fails with
`BadSerializedStringFormat` whose message indicates the `type|payload$`
form. -/
theorem deserialize_last_envelope_and_bad_format :
    ((dummyFacade.deserialize testSerialized).1 = .ok ctx2 ∧
     DummySerializer.deser ((" serialized text")) = some ctx2 ∧
     pyInStr (("type|payload$")) badFormatMsg = true) ∧
    (∀ (f : SerializationFacade) (s : String), findLastEnvelope s = none →
      (f.deserialize s).1 = .error (.badSerializedStringFormat badFormatMsg)) := by
  refine ⟨⟨rfl, rfl, rfl⟩, ?_⟩
  intro f s h
  unfold SerializationFacade.deserialize
  rw [h]

theorem deserialize_last_envelope_and_bad_format_witness :
    (SerializationFacade.init.deserialize
        (("\x7b\"my_key\": \"my_val\"\x7d"))).1
      = .error (.badSerializedStringFormat badFormatMsg) :=
  deserialize_last_envelope_and_bad_format.2 SerializationFacade.init
    (("\x7b\"my_key\": \"my_val\"\x7d")) (by rfl)

/-- C6: `get_type` is `json` on a fresh facade; `serialize` never changes the
current type; a successful `deserialize` sets it to the extracted tag; a
failed `deserialize` leaves it unchanged. -/
theorem current_type_tracking :
    SerializationFacade.init.get_type = ("json") ∧
    (∀ (f : SerializationFacade) (C : Json) (t : Option String),
      ((f.serialize C t).2).get_type = f.get_type) ∧
    (∀ (f : SerializationFacade) (s : String) (c : Json)
        (f2 : SerializationFacade), f.deserialize s = (.ok c, f2) →
      ∃ t p, findLastEnvelope s = some (t, p) ∧ f2.get_type = t) ∧
    (∀ (f : SerializationFacade) (s : String) (e : SerError)
        (f2 : SerializationFacade), f.deserialize s = (.error e, f2) →
      f2.get_type = f.get_type) := by
  refine ⟨rfl, ?_, ?_, ?_⟩
  · intro f C t
    unfold SerializationFacade.serialize
    cases h : dictGet f.serializers (t.getD f.current_type) <;> simp [h]
  · intro f s c f2 hde
    unfold SerializationFacade.deserialize at hde
    cases hE : findLastEnvelope s with
    | none => rw [hE] at hde; exact absurd hde (by simp)
    | some tp =>
      obtain ⟨t, p⟩ := tp
      simp only [hE] at hde
      cases hG : dictGet f.serializers t with
      | none => simp [hG] at hde
      | some ser =>
        simp only [hG] at hde
        cases hDe : ser.deser p with
        | none => simp [hDe] at hde
        | some ctx =>
          simp only [hDe] at hde
          refine ⟨t, p, rfl, ?_⟩
          have h2 : { f with current_type := t } = f2 := by
            simpa using congrArg Prod.snd hde
          rw [← h2]
          rfl
  · intro f s e f2 hde
    unfold SerializationFacade.deserialize at hde
    cases hE : findLastEnvelope s with
    | none =>
      rw [hE] at hde
      have h2 : f = f2 := by simpa using congrArg Prod.snd hde
      rw [← h2]
    | some tp =>
      obtain ⟨t, p⟩ := tp
      simp only [hE] at hde
      cases hG : dictGet f.serializers t with
      | none =>
        simp only [hG] at hde
        have h2 : f = f2 := by simpa using congrArg Prod.snd hde
        rw [← h2]
      | some ser =>
        simp only [hG] at hde
        cases hDe : ser.deser p with
        | none =>
          simp only [hDe] at hde
          have h2 : f = f2 := by simpa using congrArg Prod.snd hde
          rw [← h2]
        | some ctx =>
          simp [hDe] at hde

theorem current_type_tracking_witness :
    ((dummyFacade.deserialize (("dummy|serialized$"))).2).get_type = ("dummy") := by
  have h := current_type_tracking.2.2.1 dummyFacade (("dummy|serialized$")) ctx1
    ((dummyFacade.deserialize (("dummy|serialized$"))).2) (by rfl)
  obtain ⟨t, p, hfind, hty⟩ := h
  have h2 : findLastEnvelope (("dummy|serialized$"))
      = some ((("dummy")), (("serialized"))) := by rfl
  rw [h2] at hfind
  cases hfind
  exact hty

/-- C7: `register` rejects every grammar-violating tag with
`InvalidSerializerType` and every serializer that does not declare the
`AbstractSerializer` capability with `InvalidType`, in both cases returning
the facade unchanged; the six sample tags all violate the grammar. -/
theorem register_validation :
    (∀ (f : SerializationFacade) (t : String) (s : PySerializer),
      (validTag t = false →
        f.register t s
          = (.error (.invalidSerializerType (("Invalid serializer type: ") ++ t)), f)) ∧
      (validTag t = true → s.isAbstract = false →
        f.register t s
          = (.error (.invalidType (("Serializer should extend AbstractSerializer"))), f))) ∧
    ([(("9type")), (("-type")), ((".type")), (("typ|e")), (("typ:e")),
        (("typ!e"))].all (fun x => !validTag x) = true) := by
  refine ⟨?_, by rfl⟩
  intro f t s
  constructor
  · intro h
    unfold SerializationFacade.register
    rw [if_neg (by simp [h])]
  · intro h1 h2
    unfold SerializationFacade.register
    rw [if_pos (by simp [h1]), if_neg (by simp [h2])]

theorem register_validation_witness :
    SerializationFacade.init.register (("9type")) DummySerializer
        = (.error (.invalidSerializerType
            (("Invalid serializer type: ") ++ (("9type")))),
          SerializationFacade.init) ∧
    SerializationFacade.init.register (("fake")) FakeSerializer
        = (.error (.invalidType (("Serializer should extend AbstractSerializer"))),
          SerializationFacade.init) :=
  ⟨(register_validation.1 SerializationFacade.init (("9type")) DummySerializer).1
      (by rfl),
   (register_validation.1 SerializationFacade.init (("fake")) FakeSerializer).2
      (by rfl) (by rfl)⟩

/-- C1: when the selected hook subprocess exits with status 0 and the list of
greedy brace-delimited matches in its captured stdout has a last element that
parses as JSON, `run_script_with_context` returns that parsed value as the
new context. -/
theorem hook_stdout_last_json_is_context (render : String → PyDict → String)
    (readFile : String → String) (tmpBase : String)
    (run : String → String → String → ProcResult)
    (script_path cwd : String) (context : PyDict) (m : String) (v : Json)
    (hexit : (run (hookScript render readFile tmpBase script_path context) cwd
        (dumps (Json.obj context))).exitStatus = 0)
    (hm : (findallBraces
        (run (hookScript render readFile tmpBase script_path context) cwd
          (dumps (Json.obj context))).stdout).getLast? = some m)
    (hv : pyLoads m = some v) :
    run_script_with_context render readFile tmpBase run script_path cwd context
      = .ok v := by
  rw [rswc_of_exit_zero render readFile tmpBase run script_path cwd context hexit]
  unfold interpretStdout
  simp only [hm, hv]

theorem hook_stdout_last_json_is_context_witness :
    run_script_with_context idRender emptyRead (("/tmp/hook"))
        (constRun exampleStdout (("some warning")) 0)
        (("hooks/pre_gen_project.py")) (("/proj")) hookCtx
      = .ok (Json.obj [(("new_key"), Json.str (("v")))]) :=
  hook_stdout_last_json_is_context idRender emptyRead (("/tmp/hook"))
    (constRun exampleStdout (("some warning")) 0)
    (("hooks/pre_gen_project.py")) (("/proj")) hookCtx
    (("\x7b\"new_key\": \"v\"\x7d")) (Json.obj [(("new_key"), Json.str (("v")))])
    (by rfl) (by rfl) (by rfl)

/-- C3: when the hook subprocess exits with status 0 but its stdout has no
brace-delimited match, or the last match does not parse as JSON, the input
context is returned unchanged and no error is raised. -/
theorem hook_malformed_stdout_context_unchanged
    (render : String → PyDict → String) (readFile : String → String)
    (tmpBase : String) (run : String → String → String → ProcResult)
    (script_path cwd : String) (context : PyDict)
    (hexit : (run (hookScript render readFile tmpBase script_path context) cwd
        (dumps (Json.obj context))).exitStatus = 0) :
    ((findallBraces
        (run (hookScript render readFile tmpBase script_path context) cwd
          (dumps (Json.obj context))).stdout).getLast? = none →
      run_script_with_context render readFile tmpBase run script_path cwd context
        = .ok (Json.obj context)) ∧
    (∀ m : String,
      (findallBraces
        (run (hookScript render readFile tmpBase script_path context) cwd
          (dumps (Json.obj context))).stdout).getLast? = some m →
      pyLoads m = none →
      run_script_with_context render readFile tmpBase run script_path cwd context
        = .ok (Json.obj context)) := by
  constructor
  · intro h
    rw [rswc_of_exit_zero render readFile tmpBase run script_path cwd context hexit]
    unfold interpretStdout
    rw [h]
  · intro m h1 h2
    rw [rswc_of_exit_zero render readFile tmpBase run script_path cwd context hexit]
    unfold interpretStdout
    simp only [h1, h2]

theorem hook_malformed_stdout_context_unchanged_witness :
    run_script_with_context idRender emptyRead (("/tmp/hook"))
        (constRun noJsonStdout (("")) 0) (("hooks/post_gen_project.sh"))
        (("/proj")) hookCtx
      = .ok (Json.obj hookCtx) ∧
    run_script_with_context idRender emptyRead (("/tmp/hook"))
        (constRun badJsonStdout (("")) 0) (("hooks/post_gen_project.sh"))
        (("/proj")) hookCtx
      = .ok (Json.obj hookCtx) :=
  ⟨(hook_malformed_stdout_context_unchanged idRender emptyRead (("/tmp/hook"))
      (constRun noJsonStdout (("")) 0) (("hooks/post_gen_project.sh"))
      (("/proj")) hookCtx (by rfl)).1 (by rfl),
   (hook_malformed_stdout_context_unchanged idRender emptyRead (("/tmp/hook"))
      (constRun badJsonStdout (("")) 0) (("hooks/post_gen_project.sh"))
      (("/proj")) hookCtx (by rfl)).2 (("\x7bnot valid json\x7d")) (by rfl)
      (by rfl)⟩

/-- C4: a hook subprocess exiting with a non-zero status makes
`run_script_with_context` raise `FailedHookException` whose message names
that exit status; a zero exit status never raises it (the result is the
reinterpreted stdout); and `run_hook` delegates to `run_script_with_context`
whenever the hook is found, so the exception propagates through it. -/
theorem hook_exit_status_policy (render : String → PyDict → String)
    (readFile : String → String) (tmpBase : String)
    (run : String → String → String → ProcResult)
    (script_path cwd : String) (context : PyDict) (e : Int)
    (he : (run (hookScript render readFile tmpBase script_path context) cwd
        (dumps (Json.obj context))).exitStatus = e) :
    (e ≠ 0 →
      run_script_with_context render readFile tmpBase run script_path cwd context
        = .error (.failedHook
            (("Hook script failed (exit status: ") ++ toString e ++ (")")))) ∧
    (e = 0 →
      run_script_with_context render readFile tmpBase run script_path cwd context
        = .ok (interpretStdout context
            (run (hookScript render readFile tmpBase script_path context) cwd
              (dumps (Json.obj context))).stdout)) ∧
    (∀ (abspath : String → String) (hooksDirListing : Option (List String))
        (hook_name : String) (hscript : String),
      dictGet (find_hooks abspath hooksDirListing) hook_name = some hscript →
      run_hook abspath render readFile tmpBase run hooksDirListing hook_name
          cwd context
        = run_script_with_context render readFile tmpBase run hscript cwd
            context) := by
  refine ⟨?_, ?_, ?_⟩
  · intro hne
    exact rswc_of_exit_nonzero render readFile tmpBase run script_path cwd
      context e he hne
  · intro h0
    exact rswc_of_exit_zero render readFile tmpBase run script_path cwd context
      (h0 ▸ he)
  · intro abspath hooksDirListing hook_name hscript hfound
    unfold run_hook
    rw [hfound]

theorem hook_exit_status_policy_witness :
    run_script_with_context idRender emptyRead (("/tmp/hook"))
        (constRun (("boom")) (("stack trace")) 1) (("hooks/pre_gen_project.py"))
        (("/proj")) hookCtx
      = .error (.failedHook
          (("Hook script failed (exit status: ") ++ toString (1 : Int) ++ (")"))) ∧
    run_script_with_context idRender emptyRead (("/tmp/hook"))
        (constRun noJsonStdout (("")) 0) (("hooks/pre_gen_project.py"))
        (("/proj")) hookCtx
      = .ok (Json.obj hookCtx) :=
  ⟨(hook_exit_status_policy idRender emptyRead (("/tmp/hook"))
      (constRun (("boom")) (("stack trace")) 1) (("hooks/pre_gen_project.py"))
      (("/proj")) hookCtx 1 (by rfl)).1 (by decide),
   (hook_exit_status_policy idRender emptyRead (("/tmp/hook"))
      (constRun noJsonStdout (("")) 0) (("hooks/pre_gen_project.py"))
      (("/proj")) hookCtx 0 (by rfl)).2.1 (by rfl)⟩

/-- C8: `find_hooks` returns the empty dict when the `hooks` directory is
absent, and `run_hook` returns the input context unchanged, without error,
when no file in the `hooks` directory matches the hook name once stripped of
its extension. -/
theorem missing_hook_is_noop :
    (∀ abspath : String → String, find_hooks abspath none = []) ∧
    (∀ (abspath : String → String) (render : String → PyDict → String)
        (readFile : String → String) (tmpBase : String)
        (run : String → String → String → ProcResult) (files : List String)
        (hook_name project_dir : String) (context : PyDict),
      (∀ f ∈ files, (splitext (basename f)).1 ≠ hook_name) →
      run_hook abspath render readFile tmpBase run (some files) hook_name
          project_dir context = .ok (Json.obj context)) := by
  refine ⟨fun _ => rfl, ?_⟩
  intro abspath render readFile tmpBase run files hook_name project_dir context h
  unfold run_hook
  rw [find_hooks_lookup_none abspath files hook_name h]

theorem missing_hook_is_noop_witness :
    run_hook idPath idRender emptyRead (("/tmp/hook"))
        (constRun (("")) (("")) 0) (some [(("other_hook.py")), (("README.md"))])
        (("pre_gen_project")) (("/proj")) hookCtx
      = .ok (Json.obj hookCtx) :=
  missing_hook_is_noop.2 idPath idRender emptyRead (("/tmp/hook"))
    (constRun (("")) (("")) 0) [(("other_hook.py")), (("README.md"))]
    (("pre_gen_project")) (("/proj")) hookCtx (by decide)

/-- C9: the context returned by `run_script_with_context` depends only on the
subprocess's stdout and (zero) exit status: two oracles producing identical
stdout and exit status 0, with arbitrarily different stderr, yield equal
results — stderr is captured but never examined. -/
theorem hook_result_ignores_stderr (render : String → PyDict → String)
    (readFile : String → String) (tmpBase : String)
    (run1 run2 : String → String → String → ProcResult)
    (script_path cwd : String) (context : PyDict)
    (h1 : (run1 (hookScript render readFile tmpBase script_path context) cwd
        (dumps (Json.obj context))).exitStatus = 0)
    (h2 : (run2 (hookScript render readFile tmpBase script_path context) cwd
        (dumps (Json.obj context))).exitStatus = 0)
    (hs : (run1 (hookScript render readFile tmpBase script_path context) cwd
        (dumps (Json.obj context))).stdout
      = (run2 (hookScript render readFile tmpBase script_path context) cwd
        (dumps (Json.obj context))).stdout) :
    run_script_with_context render readFile tmpBase run1 script_path cwd context
      = run_script_with_context render readFile tmpBase run2 script_path cwd
          context := by
  rw [rswc_of_exit_zero render readFile tmpBase run1 script_path cwd context h1,
    rswc_of_exit_zero render readFile tmpBase run2 script_path cwd context h2,
    hs]

theorem hook_result_ignores_stderr_witness :
    run_script_with_context idRender emptyRead (("/tmp/hook"))
        (constRun exampleStdout (("loud stderr chatter")) 0)
        (("hooks/pre_gen_project.py")) (("/proj")) hookCtx
      = run_script_with_context idRender emptyRead (("/tmp/hook"))
          (constRun exampleStdout (("")) 0)
          (("hooks/pre_gen_project.py")) (("/proj")) hookCtx :=
  hook_result_ignores_stderr idRender emptyRead (("/tmp/hook"))
    (constRun exampleStdout (("loud stderr chatter")) 0)
    (constRun exampleStdout (("")) 0)
    (("hooks/pre_gen_project.py")) (("/proj")) hookCtx
    (by rfl) (by rfl) (by rfl)

/-- C10: the hook runs in place, on the original script path, exactly when
the context carries the key `_run_hook_in_place` with a truthy value; in
every other case the script text is rendered with the context into a fresh
temporary file that keeps the original extension, and that temporary path is
the one selected for execution. -/
theorem hook_in_place_rendering (render : String → PyDict → String)
    (readFile : String → String) (tmpBase script_path : String)
    (context : PyDict) :
    ((dictHasKey context (("_run_hook_in_place"))
        && (dictGetD context (("_run_hook_in_place")) Json.null).truthy) = true →
      hookScript render readFile tmpBase script_path context = script_path) ∧
    ((dictHasKey context (("_run_hook_in_place"))
        && (dictGetD context (("_run_hook_in_place")) Json.null).truthy) = false →
      hookScript render readFile tmpBase script_path context
          = tmpBase ++ (splitext script_path).2 ∧
      create_renderable_hook render readFile tmpBase script_path context
          = (tmpBase ++ (splitext script_path).2,
             render (readFile script_path) context)) ∧
    (tmpBase ++ (splitext script_path).2 ≠ script_path →
      (hookScript render readFile tmpBase script_path context = script_path ↔
        (dictHasKey context (("_run_hook_in_place"))
          && (dictGetD context (("_run_hook_in_place")) Json.null).truthy)
            = true)) := by
  refine ⟨?_, ?_, ?_⟩
  · intro h
    unfold hookScript
    rw [if_pos h]
  · intro h
    constructor
    · unfold hookScript
      rw [if_neg (by simp [h])]
      rfl
    · rfl
  · intro hfresh
    constructor
    · intro hpath
      by_cases hc : (dictHasKey context (("_run_hook_in_place"))
          && (dictGetD context (("_run_hook_in_place")) Json.null).truthy) = true
      · exact hc
      · exfalso
        apply hfresh
        unfold hookScript at hpath
        rw [if_neg hc] at hpath
        exact hpath
    · intro h
      unfold hookScript
      rw [if_pos h]

theorem hook_in_place_rendering_witness :
    hookScript idRender emptyRead (("/tmp/hook")) (("hooks/pre_gen_project.py"))
        inPlaceCtx = (("hooks/pre_gen_project.py")) ∧
    hookScript idRender emptyRead (("/tmp/hook")) (("hooks/pre_gen_project.py"))
        hookCtx = (("/tmp/hook.py")) ∧
    ¬(hookScript idRender emptyRead (("/tmp/hook")) (("hooks/pre_gen_project.py"))
        hookCtx = (("hooks/pre_gen_project.py"))) :=
  ⟨(hook_in_place_rendering idRender emptyRead (("/tmp/hook"))
      (("hooks/pre_gen_project.py")) inPlaceCtx).1 (by rfl),
   by
    have h := ((hook_in_place_rendering idRender emptyRead (("/tmp/hook"))
      (("hooks/pre_gen_project.py")) hookCtx).2.1 (by rfl)).1
    exact h,
   by
    have h := (hook_in_place_rendering idRender emptyRead (("/tmp/hook"))
      (("hooks/pre_gen_project.py")) hookCtx).2.2 (by decide)
    intro hbad
    exact absurd (h.mp hbad) (by decide)⟩
